import Mathlib

/-!
Verification of the Pyth on-chain account decoder (`pythclient/pythaccounts.py`).

Shallow embedding conventions:
* A byte buffer is a `List Nat`; real buffers have entries `< 256`, and every
  concrete buffer used below does.  Little-endian field reads use `List.getD`
  with default `0`; every code path of the source that reads a field either
  checks the length first (`struct.unpack_from` semantics are modelled by an
  explicit length guard raising `structError`) or slices (Python slices
  truncate silently, modelled by `drop`/`take`).
* Python exceptions raised during a decode are modelled by `Except DecodeErr`;
  one constructor per distinct raise site kind (ValueError from header checks,
  ValueError from enum constructors, struct.error, IndexError, AssertionError).
* Attribute strings are kept as their raw payload bytes: the source decodes
  them with `bytes.decode('utf8', 'replace')`, which never fails, so the
  error/termination behaviour is unaffected by this abstraction.
* `SolanaPublicKey` lives in `solana.py`, outside the sources provided here.
  Modelled from the spec: a public key is its 32 raw bytes ("public-key
  encoding/equality" is out of scope, a fixed-width slice that is all zero
  means "absent").  Keys are therefore plain byte lists and the constructor
  is the identity.
* Python dicts preserve insertion order and update values in place; assoc
  lists with `dictInsert`/`dictPop` model exactly that.
-/

abbrev Byte := Nat
abbrev Buffer := List Byte
abbrev Key := List Byte

/-- `_MAGIC = 0xA1B2C3D4`. -/
def MAGIC : Nat := 0xA1B2C3D4

/-- `_SUPPORTED_VERSIONS = {1, 2}`. -/
def SUPPORTED_VERSIONS : List Nat := [1, 2]

/-- `_ACCOUNT_HEADER_BYTES = 16`. -/
def ACCOUNT_HEADER_BYTES : Nat := 16

/-- `_NULL_KEY_BYTES = b'\x00' * 32`. -/
def nullKey : Key := List.replicate 32 0

/-- Little-endian unsigned integer made of `n` bytes of `b` starting at `i`
(missing bytes default to 0; callers guard lengths as the source does). -/
def leBytes (b : Buffer) (i : Nat) : Nat → Nat
  | 0 => 0
  | n + 1 => b.getD i 0 + 256 * leBytes b (i + 1) n

def u32At (b : Buffer) (i : Nat) : Nat := leBytes b i 4

def u64At (b : Buffer) (i : Nat) : Nat := leBytes b i 8

/-- Two's-complement signed reading of a 32-bit little-endian field. -/
def i32At (b : Buffer) (i : Nat) : Int :=
  let v := u32At b i
  if v < 2 ^ 31 then (v : Int) else (v : Int) - 2 ^ 32

/-- Two's-complement signed reading of a 64-bit little-endian field. -/
def i64At (b : Buffer) (i : Nat) : Int :=
  let v := u64At b i
  if v < 2 ^ 63 then (v : Int) else (v : Int) - 2 ^ 64

/-- Python slice `b[i:i+32]` (truncates silently at the end of the buffer). -/
def keyAt (b : Buffer) (i : Nat) : Key := (b.drop i).take 32

/-- One constructor per kind of Python exception a decode can raise. -/
inductive DecodeErr
  /-- ValueError: "Pyth account data too short". -/
  | dataTooShort
  /-- ValueError: "header says data is N bytes, but buffer only has M bytes". -/
  | sizeMismatch
  /-- ValueError: "account data header has wrong magic". -/
  | wrongMagic
  /-- ValueError: "account data has unsupported version". -/
  | unsupportedVersion
  /-- ValueError raised by `PythAccountType(type_)` on an unknown tag. -/
  | invalidAccountType
  /-- ValueError raised by `PythPriceStatus(...)` on an unknown status. -/
  | invalidPriceStatus
  /-- ValueError raised by `PythPriceType(...)` on an unknown price type. -/
  | invalidPriceType
  /-- ValueError: "wrong Pyth account type ... for ...". -/
  | wrongAccountType
  /-- struct.error raised by `struct.unpack_from` on a short buffer. -/
  | structError
  /-- IndexError raised by `buffer[offset]` past the end of the buffer. -/
  | indexError
  /-- AssertionError raised by `assert False` in the version dispatch. -/
  | assertionFailed
deriving DecidableEq

/-- `True` exactly on the `.error` constructor. -/
def isErr {α : Type} : Except DecodeErr α → Bool
  | .error _ => true
  | .ok _ => false

/-- `class PythAccountType(Enum)`. -/
inductive PythAccountType
  | UNKNOWN
  | MAPPING
  | PRODUCT
  | PRICE
deriving DecidableEq

/-- `PythAccountType(n)`: `some` of the member with value `n`, else the
ValueError the Enum constructor raises (surfaced as `none` here). -/
def PythAccountType.ofNat? (n : Nat) : Option PythAccountType :=
  if n = 0 then some .UNKNOWN
  else if n = 1 then some .MAPPING
  else if n = 2 then some .PRODUCT
  else if n = 3 then some .PRICE
  else none

/-- `class PythPriceStatus(Enum)`. -/
inductive PythPriceStatus
  | UNKNOWN
  | TRADING
  | HALTED
  | AUCTION
deriving DecidableEq

def PythPriceStatus.ofNat? (n : Nat) : Option PythPriceStatus :=
  if n = 0 then some .UNKNOWN
  else if n = 1 then some .TRADING
  else if n = 2 then some .HALTED
  else if n = 3 then some .AUCTION
  else none

/-- `class PythPriceType(Enum)`. -/
inductive PythPriceType
  | UNKNOWN
  | PRICE
  | TWAP
  | VOLATILITY
deriving DecidableEq

def PythPriceType.ofNat? (n : Nat) : Option PythPriceType :=
  if n = 0 then some .UNKNOWN
  else if n = 1 then some .PRICE
  else if n = 2 then some .TWAP
  else if n = 3 then some .VOLATILITY
  else none

/-- `class TwEmaType(Enum)`. -/
inductive TwEmaType
  | UNKNOWN
  | TWAPVALUE
  | TWAPNUMERATOR
  | TWAPDENOMINATOR
  | TWACVALUE
  | TWACNUMERATOR
  | TWACDENOMINATOR
deriving DecidableEq

/-- `_read_public_key_or_none(buffer, offset)`: slice 32 bytes, all-zero means
absent, otherwise the key is the slice itself. -/
def read_public_key_or_none (buffer : Buffer) (offset : Nat := 0) : Option Key :=
  let b := keyAt buffer offset
  if b = nullKey then none else some b

/-- `_read_attribute_string(buffer, offset)`: one length byte (an out-of-range
index raises IndexError), zero length returns `(None, offset)` unchanged,
otherwise the payload slice (silently truncated by Python slicing) and the
offset past length byte + declared payload. -/
def read_attribute_string (buffer : Buffer) (offset : Nat) :
    Except DecodeErr (Option (List Byte) × Nat) :=
  match buffer.get? offset with
  | none => .error .indexError
  | some length =>
    if length = 0 then .ok (none, offset)
    else
      let dataEnd := offset + 1 + length
      .ok (some ((buffer.drop (offset + 1)).take length), dataEnd)

/-- `_parse_header(buffer, offset, key=...)`: length guard, four u32 fields,
declared-size guard, magic guard, version guard, then `PythAccountType(type_)`
(which itself raises ValueError on an unknown tag).  Returns
`(account type, declared size, version)`. -/
def parse_header (buffer : Buffer) (offset : Nat := 0) :
    Except DecodeErr (PythAccountType × Nat × Nat) :=
  -- the unpacked fields: magic = u32 at offset, version = u32 at offset+4,
  -- type_ = u32 at offset+8, size = u32 at offset+12
  if buffer.length - offset < ACCOUNT_HEADER_BYTES then .error .dataTooShort
  else if buffer.length < u32At buffer (offset + 12) then .error .sizeMismatch
  else if u32At buffer offset ≠ MAGIC then .error .wrongMagic
  else if u32At buffer (offset + 4) ∉ SUPPORTED_VERSIONS then .error .unsupportedVersion
  else
    match PythAccountType.ofNat? (u32At buffer (offset + 8)) with
    | none => .error .invalidAccountType
    | some t => .ok (t, u32At buffer (offset + 12), u32At buffer (offset + 4))

lemma PythAccountType.ofNat?_eq_none_iff (n : Nat) :
    PythAccountType.ofNat? n = none ↔ 4 ≤ n := by
  unfold PythAccountType.ofNat?
  split_ifs with h0 h1 h2 h3 <;> simp <;> omega

/-- Python dict assignment `d[k] = v`: updates an existing key in place
(keeping its position) or appends a new one. -/
def dictInsert {α β : Type} [DecidableEq α] (d : List (α × β)) (k : α) (v : β) :
    List (α × β) :=
  if d.any (fun p => p.1 = k) then
    d.map (fun p => if p.1 = k then (k, v) else p)
  else d ++ [(k, v)]

/-- Python `d.pop(k, None)`: the popped value (if any) and the rest in order. -/
def dictPop {α β : Type} [DecidableEq α] (d : List (α × β)) (k : α) :
    Option β × List (α × β) :=
  match d.find? (fun p => p.1 = k) with
  | some p => (some p.2, d.filter (fun q => decide (q.1 ≠ k)))
  | none => (none, d)

/-- `class PythPriceInfo` (decoded fields; the derived decimal `price` and
`confidence_interval` are the definitions below). -/
structure PythPriceInfo where
  raw_price : Int
  raw_confidence_interval : Nat
  price_status : PythPriceStatus
  slot : Nat
  exponent : Int
deriving DecidableEq

/-- `self.price = self.raw_price * (10 ** self.exponent)`.  Python evaluates a
negative exponent in floating point; the embedding uses exact rationals. -/
def PythPriceInfo.price (p : PythPriceInfo) : ℚ :=
  (p.raw_price : ℚ) * (10 : ℚ) ^ p.exponent

/-- `self.confidence_interval = self.raw_confidence_interval * (10 ** self.exponent)`. -/
def PythPriceInfo.confidence_interval (p : PythPriceInfo) : ℚ :=
  (p.raw_confidence_interval : ℚ) * (10 : ℚ) ^ p.exponent

/-- `PythPriceInfo.LENGTH = 32`. -/
def PythPriceInfo.LENGTH : Nat := 32

/-- `PythPriceInfo.deserialise(buffer, offset, exponent=...)`: unpack
`"<qQIIQ"` (32 bytes, struct.error when short), then `PythPriceStatus(status)`
(ValueError on an unknown status). -/
def PythPriceInfo.deserialise (buffer : Buffer) (offset : Nat) (exponent : Int) :
    Except DecodeErr PythPriceInfo :=
  if buffer.length < offset + 32 then .error .structError
  else
    let price := i64At buffer offset
    let confidence_interval := u64At buffer (offset + 8)
    let price_status := u32At buffer (offset + 16)
    -- u32 at offset+20 is corporate_action, unused
    let slot := u64At buffer (offset + 24)
    match PythPriceStatus.ofNat? price_status with
    | none => .error .invalidPriceStatus
    | some st => .ok ⟨price, confidence_interval, st, slot, exponent⟩

/-- `class PythPriceComponent`. -/
structure PythPriceComponent where
  publisher_key : Key
  last_aggregate_price_info : PythPriceInfo
  latest_price_info : PythPriceInfo
  exponent : Int
deriving DecidableEq

/-- `PythPriceComponent.LENGTH = 32 + 2*32 = 96`. -/
def PythPriceComponent.LENGTH : Nat := 96

/-- `PythPriceComponent.deserialise`: an all-zero quoter key yields `None`
(end-of-list sentinel), otherwise two `PythPriceInfo`s follow the key. -/
def PythPriceComponent.deserialise (buffer : Buffer) (offset : Nat)
    (exponent : Int) : Except DecodeErr (Option PythPriceComponent) :=
  match read_public_key_or_none buffer offset with
  | none => .ok none
  | some key =>
    match PythPriceInfo.deserialise buffer (offset + 32) exponent with
    | .error e => .error e
    | .ok last_aggregate_price =>
      match PythPriceInfo.deserialise buffer (offset + 64) exponent with
      | .error e => .error e
      | .ok latest_price => .ok (some ⟨key, last_aggregate_price, latest_price, exponent⟩)

/-- Decoded fields of a `PythPriceAccount` after `update_from`. -/
structure PriceData where
  price_type : PythPriceType
  exponent : Int
  num_components : Nat
  last_slot : Nat
  valid_slot : Nat
  product_account_key : Key
  next_price_account_key : Option Key
  aggregate_price_info : PythPriceInfo
  price_components : List PythPriceComponent
  derivations : List (TwEmaType × Int)
deriving DecidableEq

/-- The `while offset < buffer_len` component loop of
`PythPriceAccount.update_from`: deserialise a component, stop on the all-zero
sentinel, advance by `PythPriceComponent.LENGTH`.  Each iteration advances the
offset by 96, so `buffer.length + 1` units of fuel are never exhausted; the
fuel-0 branch is unreachable. -/
def componentLoop (buffer : Buffer) (exponent : Int) :
    Nat → Nat → Except DecodeErr (List PythPriceComponent)
  | 0, _ => .ok []
  | fuel + 1, offset =>
    if offset < buffer.length then
      match PythPriceComponent.deserialise buffer offset exponent with
      | .error e => .error e
      | .ok none => .ok []
      | .ok (some component) =>
        match componentLoop buffer exponent fuel (offset + 96) with
        | .error e => .error e
        | .ok rest => .ok (component :: rest)
    else .ok []

/-- Shared tail of `PythPriceAccount.update_from` after the versioned prefix:
aggregate `PythPriceInfo`, component loop, then the field assignments
(including `PythPriceType(price_type)`, which raises on an unknown value, and
`_read_public_key_or_none(next_price_account_key_bytes)`). -/
def priceFinish (buffer : Buffer) (offset : Nat) (price_type : Nat)
    (exponent : Int) (num_components last_slot valid_slot : Nat)
    (productKeyBytes nextKeyBytes : Key) (derivations : List (TwEmaType × Int)) :
    Except DecodeErr PriceData :=
  match PythPriceInfo.deserialise buffer offset exponent with
  | .error e => .error e
  | .ok aggregate_price_info =>
    match componentLoop buffer exponent (buffer.length + 1) (offset + 32) with
    | .error e => .error e
    | .ok price_components =>
      match PythPriceType.ofNat? price_type with
      | none => .error .invalidPriceType
      | some pt =>
        .ok { price_type := pt
              exponent := exponent
              num_components := num_components
              last_slot := last_slot
              valid_slot := valid_slot
              product_account_key := productKeyBytes
              next_price_account_key :=
                if nextKeyBytes = nullKey then none else some nextKeyBytes
              aggregate_price_info := aggregate_price_info
              price_components := price_components
              derivations := derivations }

/-- `PythPriceAccount.update_from(buffer, version=..., offset=...)`.

Version 2 prefix: `"<IiI"` at `offset` (guard: 12 bytes), skip to
`offset+16`; `"<QQ"` (guard: 16 more bytes); `"<8q"` derivations (guard: 64
more bytes), of which `derivations[TWACVALUE-1]` and `derivations[TWAPVALUE-1]`
(indices 3 and 0) are retained, in that order; `"32s32s"` product and next
keys (guard: 64 more bytes); then `offset += 96` — 32 bytes more than the two
keys just read, so the aggregate `PythPriceInfo` starts 192 bytes after the
prefix began.

Version 1 prefix: `"<IiIIQQ32s32s32s"` (guard: 128 bytes), aggregator key read
and dropped, `derivations = {}`, aggregate starts 128 bytes in.

Any other version: `assert False`. -/
def PythPriceAccount.update_from (version : Nat) (buffer : Buffer)
    (offset : Nat) : Except DecodeErr PriceData :=
  if version = 2 then
    if buffer.length < offset + 12 then .error .structError
    else if buffer.length < offset + 32 then .error .structError
    else if buffer.length < offset + 96 then .error .structError
    else if buffer.length < offset + 160 then .error .structError
    else
      let derivations := (List.range 8).map (fun i => i64At buffer (offset + 32 + 8 * i))
      priceFinish buffer (offset + 192)
        (u32At buffer offset) (i32At buffer (offset + 4)) (u32At buffer (offset + 8))
        (u64At buffer (offset + 16)) (u64At buffer (offset + 24))
        (keyAt buffer (offset + 96)) (keyAt buffer (offset + 128))
        [(TwEmaType.TWACVALUE, derivations.getD 3 0),
         (TwEmaType.TWAPVALUE, derivations.getD 0 0)]
  else if version = 1 then
    if buffer.length < offset + 128 then .error .structError
    else
      priceFinish buffer (offset + 128)
        (u32At buffer offset) (i32At buffer (offset + 4)) (u32At buffer (offset + 8))
        (u64At buffer (offset + 16)) (u64At buffer (offset + 24))
        (keyAt buffer (offset + 32)) (keyAt buffer (offset + 64))
        []
  else .error .assertionFailed

/-- Decoded fields of a `PythMappingAccount` after `update_from`. -/
structure MappingData where
  entries : List Key
  next_account_key : Option Key
deriving DecidableEq

/-- `PythMappingAccount.update_from(buffer, version=..., offset=...)`: unpack
`"<II32s"` (40 bytes, struct.error when short), read the next-mapping key
through `_read_public_key_or_none`, then read exactly `num_entries` 32-byte
key slots, appending each non-null key in order and skipping null keys with a
logged warning.  (The `SolanaPublicKey` constructor on a slot slice is the
identity on its bytes, see the header comment.) -/
def PythMappingAccount.update_from (buffer : Buffer) (offset : Nat) :
    Except DecodeErr MappingData :=
  if buffer.length < offset + 40 then .error .structError
  else
    let num_entries := u32At buffer offset
    -- u32 at offset+4 is unused
    let next_account_key := read_public_key_or_none (keyAt buffer (offset + 8))
    let entries := (List.range num_entries).filterMap (fun i =>
      let new_key := keyAt buffer (offset + 40 + 32 * i)
      if new_key = nullKey then none else some new_key)
    .ok { entries := entries, next_account_key := next_account_key }

/-- Decoded fields of a `PythProductAccount` after `update_from`.  The source
also resets the cached price map to `{}` when the first-price key is null;
that effect lives on the account object and is modelled in the graph-engine
state below, not here. -/
structure ProductData where
  first_price_account_key : Option Key
  attrs : List (List Byte × Option (List Byte))
deriving DecidableEq

/-- The `while offset < buffer_len` attribute loop of
`PythProductAccount.update_from`: read a name (a zero length byte breaks the
loop), read a value, `attrs[key] = value`.  Each iteration advances the offset
by at least 2, so `buffer.length + 1` units of fuel are never exhausted; the
fuel-0 branch is unreachable. -/
def attrLoop (buffer : Buffer) :
    Nat → Nat → List (List Byte × Option (List Byte)) →
    Except DecodeErr (List (List Byte × Option (List Byte)))
  | 0, _, attrs => .ok attrs
  | fuel + 1, offset, attrs =>
    if offset < buffer.length then
      match read_attribute_string buffer offset with
      | .error e => .error e
      | .ok (none, _) => .ok attrs
      | .ok (some key, offset1) =>
        match read_attribute_string buffer offset1 with
        | .error e => .error e
        | .ok (value, offset2) => attrLoop buffer fuel offset2 (dictInsert attrs key value)
    else .ok attrs

/-- `PythProductAccount.update_from(buffer, version=..., offset=...)`: slice
the first-price key, run the attribute loop, then assign the key (null means
absent). -/
def PythProductAccount.update_from (buffer : Buffer) (offset : Nat) :
    Except DecodeErr ProductData :=
  let firstBytes := keyAt buffer offset
  match attrLoop buffer (buffer.length + 1) (offset + 32) [] with
  | .error e => .error e
  | .ok attrs =>
    .ok { first_price_account_key :=
            if firstBytes = nullKey then none else some firstBytes
          attrs := attrs }

/-- The concrete `PythAccount` subclass an update is invoked on
(`type(self)` in `update_with_rpc_response`). -/
inductive SelfKind
  | mappingAccount
  | productAccount
  | priceAccount
deriving DecidableEq

/-- `_ACCOUNT_TYPE_TO_CLASS.get(type_, None)`. -/
def accountTypeToClass : PythAccountType → Option SelfKind
  | .MAPPING => some .mappingAccount
  | .PRODUCT => some .productAccount
  | .PRICE => some .priceAccount
  | .UNKNOWN => none

/-- The decoded record of whichever subclass ran its `update_from`. -/
inductive AccountData
  | mapping : MappingData → AccountData
  | product : ProductData → AccountData
  | price : PriceData → AccountData
deriving DecidableEq

/-- Dispatch to the subclass `update_from` override. -/
def accountUpdateFrom (cls : SelfKind) (buffer : Buffer) (version : Nat)
    (offset : Nat) : Except DecodeErr AccountData :=
  match cls with
  | .mappingAccount => (PythMappingAccount.update_from buffer offset).map .mapping
  | .productAccount => (PythProductAccount.update_from buffer offset).map .product
  | .priceAccount => (PythPriceAccount.update_from version buffer offset).map .price

/-- Lines 135–139 of `update_with_rpc_response`: parse the header, look the
account type up in `_ACCOUNT_TYPE_TO_CLASS` and raise ValueError when it does
not match the class of `self`. -/
def headerClassCheck (cls : SelfKind) (data : Buffer) :
    Except DecodeErr (PythAccountType × Nat × Nat) :=
  match parse_header data 0 with
  | .error e => .error e
  | .ok (t, size, version) =>
    if accountTypeToClass t ≠ some cls then .error .wrongAccountType
    else .ok (t, size, version)

/-- `PythAccount.update_with_rpc_response(slot, value)`, starting from the
already-base64-decoded account bytes (the RPC envelope, slot bookkeeping and
base64 transport are outside this decoder).  Header and class-mismatch errors
propagate; the body decode `self.update_from(data[:size], version=version,
offset=16)` is wrapped in `try/except Exception: logger.exception(...)`, so a
body error is logged and swallowed — the method then returns normally with the
record not updated, modelled as `.ok none`. -/
def PythAccount.update_with_rpc_response (cls : SelfKind) (data : Buffer) :
    Except DecodeErr (Option AccountData) :=
  match headerClassCheck cls data with
  | .error e => .error e
  | .ok (_, size, version) =>
    match accountUpdateFrom cls (data.take size) version ACCOUNT_HEADER_BYTES with
    | .ok d => .ok (some d)
    | .error _ => .ok none

/-- The fields of a decoded `PythPriceAccount` that the product graph engine
reads: its own key, `price_type`, and `next_price_account_key`.

Modelled from the spec: `await price.update()` and
`solana.update_accounts([...])` go through the external `AccountSource`
capability (`solana.py`, outside the sources here), which on success yields
the account's decoded record; the graph walks below take that capability as a
function `Key → Option PriceNode`, `none` meaning the fetch failed or the
surrounding task was cancelled at that await point. -/
structure PriceNode where
  key : Key
  price_type : PythPriceType
  next_price_account_key : Option Key
deriving DecidableEq

/-- The mutable state of a `PythProductAccount` that the refresh operations
touch: `first_price_account_key` and the cached `_prices` map
(`none` = not loaded). -/
structure ProductState where
  first_price_account_key : Option Key
  prices : Option (List (PythPriceType × PriceNode))
deriving DecidableEq

/-- The `while key:` loop of `refresh_prices`: fetch the account at `key`,
insert it into the local `prices` dict under its price type, follow
`next_price_account_key`.  Only local variables are written; `fuel` counts
the hops completed before the surrounding task would be cancelled, so
`none` covers both a failed fetch and cancellation mid-walk. -/
def refreshWalk (env : Key → Option PriceNode) :
    Nat → Option Key → List (PythPriceType × PriceNode) →
    Option (List (PythPriceType × PriceNode))
  | _, none, prices => some prices
  | 0, some _, _ => none
  | fuel + 1, some key, prices =>
    match env key with
    | none => none
    | some price => refreshWalk env fuel price.next_price_account_key
        (dictInsert prices price.price_type price)

/-- `PythProductAccount.refresh_prices`: build the new dict in a local, then
`self._prices = prices` as the single final assignment.  Returns the product
state after the call together with the returned dict (`none` when the walk
raised or was cancelled, in which case the method never reaches the
assignment). -/
def refresh_prices (env : Key → Option PriceNode) (p : ProductState)
    (fuel : Nat) : ProductState × Option (List (PythPriceType × PriceNode)) :=
  match refreshWalk env fuel p.first_price_account_key [] with
  | none => (p, none)
  | some prices => ({ p with prices := some prices }, some prices)

/-- The `while key:` loop of `check_price_changes`: pop the key from the
local `old_prices` dict; on a miss fetch the new account and append it to
`added_prices`; either way insert under its price type into `new_prices` and
follow the next pointer.  Result: `(new_prices, added_prices, leftover
old_prices)`. -/
def checkWalk (env : Key → Option PriceNode) :
    Nat → Option Key → List (Key × PriceNode) →
    List (PythPriceType × PriceNode) → List PriceNode →
    Option (List (PythPriceType × PriceNode) × List PriceNode × List (Key × PriceNode))
  | _, none, old_prices, new_prices, added => some (new_prices, added, old_prices)
  | 0, some _, _, _, _ => none
  | fuel + 1, some key, old_prices, new_prices, added =>
    match dictPop old_prices key with
    | (some account, old_rest) =>
      checkWalk env fuel account.next_price_account_key old_rest
        (dictInsert new_prices account.price_type account) added
    | (none, _) =>
      match env key with
      | none => none
      | some account =>
        checkWalk env fuel account.next_price_account_key old_prices
          (dictInsert new_prices account.price_type account) (added ++ [account])

/-- `PythProductAccount.check_price_changes(update_accounts)`.

With no cached prices it defers to `refresh_prices` and returns
`(values, [])`.  Otherwise it keys the cached accounts by their account key,
optionally batch-refreshes `[self, *old_prices.values()]` (modelled from the
spec: the `AccountSource` batch fetch refreshes each account's record fields —
`selfFirst` is the product's current on-chain first-price key, `env k` the
current record of price account `k`; a missing fetch raises before any local
dict is built), then re-walks the chain and finally replaces `self._prices`
in one assignment.  `none` in the second component means the call raised (or
was cancelled) before that assignment. -/
def check_price_changes (selfFirst : Option Key) (env : Key → Option PriceNode)
    (update_accounts : Bool) (p : ProductState) (fuel : Nat) :
    ProductState × Option (List PriceNode × List PriceNode) :=
  match p.prices with
  | none =>
    match refresh_prices env p fuel with
    | (p1, some prices) => (p1, some (prices.map (fun q => q.2), []))
    | (p1, none) => (p1, none)
  | some cached =>
    let old_prices := cached.map (fun q => (q.2.key, q.2))
    if update_accounts ∧ ¬ (old_prices.all (fun q => (env q.1).isSome)) then
      (p, none)
    else
      let p1 := if update_accounts then
          { p with first_price_account_key := selfFirst } else p
      let old1 := if update_accounts then
          old_prices.map (fun q => (q.1, (env q.1).getD q.2)) else old_prices
      match checkWalk env fuel p1.first_price_account_key old1 [] [] with
      | none => (p1, none)
      | some (new_prices, added_prices, leftover) =>
        ({ p1 with prices := some new_prices },
         some (added_prices, leftover.map (fun q => q.2)))

/-- The `for price in new_prices:` loop of `use_price_accounts`: every account
must match the expected key (first key first, then each predecessor's
`next_price_account_key`), building the local dict; after the loop the
expected key must be exhausted.  `none` models the `ValueError`s raised on a
mismatch or a missing tail. -/
def usePricesLoop :
    Option Key → List PriceNode → List (PythPriceType × PriceNode) →
    Option (List (PythPriceType × PriceNode))
  | expected_key, [], prices => if expected_key = none then some prices else none
  | expected_key, price :: rest, prices =>
    if some price.key = expected_key then
      usePricesLoop price.next_price_account_key rest
        (dictInsert prices price.price_type price)
    else none

/-- `PythProductAccount.use_price_accounts(new_prices)`: validate the chain,
then `self._prices = prices` as the single final assignment; a ValueError
propagates before the assignment, leaving the product untouched. -/
def use_price_accounts (p : ProductState) (new_prices : List PriceNode) :
    ProductState × Option (List (PythPriceType × PriceNode)) :=
  match usePricesLoop p.first_price_account_key new_prices [] with
  | none => (p, none)
  | some prices => ({ p with prices := some prices }, some prices)

/-- A 16-byte buffer with correct magic, version 1, declared size 16 — and
account type tag `5`. -/
def c1bad : Buffer :=
  [212, 195, 178, 161, 1, 0, 0, 0, 5, 0, 0, 0, 16, 0, 0, 0]

/-- A 16-byte buffer with correct magic, version 1, declared size 16 and
account type tag `3` (PRICE). -/
def c1good : Buffer :=
  [212, 195, 178, 161, 1, 0, 0, 0, 3, 0, 0, 0, 16, 0, 0, 0]

/-- A 50-byte product account buffer: valid header (type 2 = PRODUCT, size
50), null first-price key, then an attribute whose name `"a"` decodes but
whose value's length byte would be read one past the end of the buffer. -/
def c2buf : Buffer :=
  [212, 195, 178, 161, 1, 0, 0, 0, 2, 0, 0, 0, 50, 0, 0, 0]
    ++ List.replicate 32 0 ++ [1, 97]

/-- A 240-byte version-2 price buffer body (the decoder is entered at offset
16): every prefix field is zero, the signed 64-bit integer 160 bytes after
the header (offset 176) is `7`, and the one 192 bytes after the header
(offset 208) is `42`. -/
def c3buf : Buffer :=
  List.replicate 176 0 ++ [7, 0, 0, 0, 0, 0, 0, 0] ++ List.replicate 24 0
    ++ [42, 0, 0, 0, 0, 0, 0, 0] ++ List.replicate 24 0

/-- What the version-2 decoder produces on `c3buf`. -/
def c3data : PriceData :=
  { price_type := .UNKNOWN
    exponent := 0
    num_components := 0
    last_slot := 0
    valid_slot := 0
    product_account_key := List.replicate 32 0
    next_price_account_key := none
    aggregate_price_info := ⟨42, 0, .UNKNOWN, 0, 0⟩
    price_components := []
    derivations := [(.TWACVALUE, 0), (.TWAPVALUE, 0)] }

/-- A 37-byte product record body: null first-price key, attribute name `"a"`,
then a value declaring 5 payload bytes where only 2 remain. -/
def c4buf : Buffer := List.replicate 32 0 ++ [1, 97, 5, 98, 99]

/-- A mapping record body declaring 3 product keys whose middle 32-byte slot
is all zero. -/
def c6key1 : Key := 1 :: List.replicate 31 0

def c6key3 : Key := 3 :: List.replicate 31 0

def c6buf : Buffer :=
  [3, 0, 0, 0] ++ [0, 0, 0, 0] ++ List.replicate 32 0
    ++ c6key1 ++ List.replicate 32 0 ++ c6key3

/-- A 32-byte `PythPriceInfo` encoding: raw price 12345, raw confidence 0,
status 1 (TRADING), slot 0. -/
def c7buf : Buffer :=
  [57, 48, 0, 0, 0, 0, 0, 0] ++ List.replicate 8 0
    ++ [1, 0, 0, 0] ++ List.replicate 4 0 ++ List.replicate 8 0

/-- Keys A, B, C, D of the chain-diff scenario. -/
def keyA : Key := [1]

def keyB : Key := [2]

def keyC : Key := [3]

def keyD : Key := [4]

/-- The previously loaded price accounts: chain A → B → C. -/
def oldA : PriceNode := ⟨keyA, .PRICE, some keyB⟩

def oldB : PriceNode := ⟨keyB, .TWAP, some keyC⟩

def oldC : PriceNode := ⟨keyC, .VOLATILITY, none⟩

/-- The current on-chain price accounts: chain A → C → D. -/
def curA : PriceNode := ⟨keyA, .PRICE, some keyC⟩

def curB : PriceNode := ⟨keyB, .TWAP, none⟩

def curC : PriceNode := ⟨keyC, .VOLATILITY, some keyD⟩

def curD : PriceNode := ⟨keyD, .UNKNOWN, none⟩

/-- The current on-chain state for the chain-diff scenario. -/
def env5 : Key → Option PriceNode := fun k =>
  if k = keyA then some curA
  else if k = keyB then some curB
  else if k = keyC then some curC
  else if k = keyD then some curD
  else none

/-- The product before the diff refresh: prices loaded from the old A → B → C
chain. -/
def p5 : ProductState :=
  { first_price_account_key := some keyA
    prices := some [(.PRICE, oldA), (.TWAP, oldB), (.VOLATILITY, oldC)] }

/-- An account source on which every fetch fails. -/
def envFail : Key → Option PriceNode := fun _ => none

/-- A product with one price account loaded and a non-null first key. -/
def p8 : ProductState :=
  { first_price_account_key := some keyA
    prices := some [(.PRICE, oldA)] }

deriving instance DecidableEq for Except

/-- Two buffers that agree on the bytes a little-endian read looks at yield
the same value. -/
lemma leBytes_congr (b1 b2 : Buffer) (i : Nat) :
    ∀ n, (∀ j, j < n → b1.getD (i + j) 0 = b2.getD (i + j) 0) →
      leBytes b1 i n = leBytes b2 i n := by
  intro n
  induction n generalizing i with
  | zero => intro _; rfl
  | succ m ih =>
    intro h
    have h0 := h 0 (by omega)
    simp only [Nat.add_zero] at h0
    have ht : leBytes b1 (i + 1) m = leBytes b2 (i + 1) m := by
      apply ih
      intro j hj
      have hg := h (j + 1) (by omega)
      rwa [show i + (j + 1) = i + 1 + j by omega] at hg
    show b1.getD i 0 + 256 * leBytes b1 (i + 1) m
        = b2.getD i 0 + 256 * leBytes b2 (i + 1) m
    rw [h0, ht]

lemma u32At_congr (b1 b2 : Buffer) (off c : Nat) (hc : c + 4 ≤ 16)
    (h : ∀ i, i < 16 → b1.getD (off + i) 0 = b2.getD (off + i) 0) :
    u32At b1 (off + c) = u32At b2 (off + c) := by
  apply leBytes_congr
  intro j hj
  have hg := h (c + j) (by omega)
  rwa [show off + (c + j) = off + c + j by omega] at hg

/-- Claim C1, counterexample: a 16-byte buffer with valid magic, version and
declared size but type tag 5 falsifies the claimed "exactly when": none of the
four listed conditions holds, yet `_parse_header` raises (the
`PythAccountType(type_)` ValueError). -/
theorem C1_counterexample :
    ¬ ((isErr (parse_header c1bad 0) = true) ↔
       (c1bad.length - 0 < 16 ∨ c1bad.length < u32At c1bad 12 ∨
        u32At c1bad 0 ≠ MAGIC ∨
        ¬ (u32At c1bad 4 = 1 ∨ u32At c1bad 4 = 2))) := by decide

/-- Claim C1, amended: `_parse_header` fails exactly when the buffer from the
offset is shorter than the 16-byte header, or the declared size exceeds the
actual buffer length, or the magic differs from `0xA1B2C3D4`, or the version
is not in `{1, 2}`, or additionally the type-tag field is not in
`{0, 1, 2, 3}`.  On success it returns the triple (account type, declared
size, version) — and it depends on nothing but the 16 header bytes and the
buffer length, so a wrong-magic buffer raises before any record field is
read; as a pure function it modifies no state. -/
theorem C1_header_amended (buffer : Buffer) (offset : Nat) :
    ((isErr (parse_header buffer offset) = true) ↔
      (buffer.length - offset < 16 ∨ buffer.length < u32At buffer (offset + 12) ∨
       u32At buffer offset ≠ MAGIC ∨
       ¬ (u32At buffer (offset + 4) = 1 ∨ u32At buffer (offset + 4) = 2) ∨
       4 ≤ u32At buffer (offset + 8)))
    ∧ (∀ t s v, parse_header buffer offset = .ok (t, s, v) →
        s = u32At buffer (offset + 12) ∧ v = u32At buffer (offset + 4) ∧
        PythAccountType.ofNat? (u32At buffer (offset + 8)) = some t)
    ∧ (∀ b2 : Buffer, b2.length = buffer.length →
        (∀ i, i < 16 → b2.getD (offset + i) 0 = buffer.getD (offset + i) 0) →
        parse_header b2 offset = parse_header buffer offset) := by
  refine ⟨?_, ?_, ?_⟩
  · simp only [parse_header, ACCOUNT_HEADER_BYTES, SUPPORTED_VERSIONS,
      List.mem_cons, List.not_mem_nil, or_false]
    split_ifs with h1 h2 h3 h4
    · simp [isErr, h1]
    · simp [isErr, h1, h2]
    · simp [isErr, h1, h2, h3]
    · rcases ho : PythAccountType.ofNat? (u32At buffer (offset + 8)) with _ | t
      · have h5 := (PythAccountType.ofNat?_eq_none_iff _).mp ho
        simp [isErr, ho, h1, h2, h3, not_not_intro h4, h5]
      · have h5 : ¬ (4 ≤ u32At buffer (offset + 8)) := by
          intro hge
          rw [(PythAccountType.ofNat?_eq_none_iff _).mpr hge] at ho
          exact Option.noConfusion ho
        simp [isErr, ho, h1, h2, h3, not_not_intro h4, h5]
    · simp [isErr, h1, h2, h3, h4]
  · intro t s v h
    simp only [parse_header, ACCOUNT_HEADER_BYTES, SUPPORTED_VERSIONS] at h
    split_ifs at h
    rcases ho : PythAccountType.ofNat? (u32At buffer (offset + 8)) with _ | t'
    · rw [ho] at h; exact Except.noConfusion h
    · rw [ho] at h
      simp only [Except.ok.injEq, Prod.mk.injEq] at h
      obtain ⟨ht, hs, hv⟩ := h
      exact ⟨hs.symm, hv.symm, by rw [ht]⟩
  · intro b2 hlen hagree
    have e0 := u32At_congr b2 buffer offset 0 (by omega) hagree
    have e4 := u32At_congr b2 buffer offset 4 (by omega) hagree
    have e8 := u32At_congr b2 buffer offset 8 (by omega) hagree
    have e12 := u32At_congr b2 buffer offset 12 (by omega) hagree
    simp only [Nat.add_zero] at e0
    unfold parse_header
    rw [hlen, e0, e4, e8, e12]

/-- Claim C1, witness: the amended characterisation applied to concrete
buffers — `c1bad` (tag 5) errors, `c1good` (tag 3) succeeds with the triple
`(PRICE, 16, 1)`. -/
theorem C1_header_witness :
    isErr (parse_header c1bad 0) = true ∧
    parse_header c1good 0 = .ok (.PRICE, 16, 1) :=
  ⟨(C1_header_amended c1bad 0).1.mpr (by decide), by decide⟩

/-- Claim C10: for every buffer whose magic, version and declared size are
all valid, `_parse_header` raises exactly when the type-tag field is not one
of `{0, 1, 2, 3}`; for a known tag it returns that account type together with
the declared size and version. -/
theorem C10_type_tag (buffer : Buffer) (offset : Nat)
    (h1 : ¬ (buffer.length - offset < 16))
    (h2 : ¬ (buffer.length < u32At buffer (offset + 12)))
    (h3 : u32At buffer offset = MAGIC)
    (h4 : u32At buffer (offset + 4) = 1 ∨ u32At buffer (offset + 4) = 2) :
    ((isErr (parse_header buffer offset) = true) ↔ 4 ≤ u32At buffer (offset + 8))
    ∧ (∀ t, PythAccountType.ofNat? (u32At buffer (offset + 8)) = some t →
        parse_header buffer offset =
          .ok (t, u32At buffer (offset + 12), u32At buffer (offset + 4))) := by
  have h4' : u32At buffer (offset + 4) ∈ SUPPORTED_VERSIONS := by
    simp only [SUPPORTED_VERSIONS, List.mem_cons, List.not_mem_nil, or_false]
    tauto
  constructor
  · simp only [parse_header, ACCOUNT_HEADER_BYTES]
    rw [if_neg h1, if_neg h2, if_neg (by simp [h3]), if_neg (not_not_intro h4')]
    rcases ho : PythAccountType.ofNat? (u32At buffer (offset + 8)) with _ | t
    · simp [isErr, (PythAccountType.ofNat?_eq_none_iff _).mp ho]
    · have h5 : ¬ (4 ≤ u32At buffer (offset + 8)) := by
        intro hge
        rw [(PythAccountType.ofNat?_eq_none_iff _).mpr hge] at ho
        exact Option.noConfusion ho
      simp [isErr, h5]
  · intro t ht
    simp only [parse_header, ACCOUNT_HEADER_BYTES]
    rw [if_neg h1, if_neg h2, if_neg (by simp [h3]), if_neg (not_not_intro h4'), ht]

/-- Claim C10, witness: the theorem applied to a valid-header buffer with tag
3 (success) and one with tag 5 (error). -/
theorem C10_type_tag_witness :
    parse_header c1good 0 = .ok (.PRICE, u32At c1good 12, u32At c1good 4) ∧
    isErr (parse_header c1bad 0) = true := by
  constructor
  · exact (C10_type_tag c1good 0 (by decide) (by decide) (by decide)
      (by decide)).2 .PRICE (by decide)
  · exact (C10_type_tag c1bad 0 (by decide) (by decide) (by decide)
      (by decide)).1.mpr (by decide)

set_option maxRecDepth 4000 in
/-- Claim C2, counterexample: `c2buf` has a well-formed header (the
header-and-class check succeeds) and a malformed record body (the body decoder
raises IndexError reading an attribute value's length byte past the end), yet
`update_with_rpc_response` returns normally (`.ok none`) instead of
propagating the error — the `try/except` around `update_from` logs and
swallows it. -/
theorem C2_counterexample :
    isErr (headerClassCheck .productAccount c2buf) = false ∧
    isErr (accountUpdateFrom .productAccount (c2buf.take 50) 1 ACCOUNT_HEADER_BYTES) = true ∧
    PythAccount.update_with_rpc_response .productAccount c2buf = .ok none := by decide

/-- Claim C2, amended: a format error raised while decoding the record body
after a well-formed header is caught inside `update_with_rpc_response` and
only logged, never propagated; the errors the caller sees are exactly the
header-parse and account-type-mismatch errors. -/
theorem C2_swallow_amended (cls : SelfKind) (data : Buffer) :
    (isErr (PythAccount.update_with_rpc_response cls data) =
      isErr (headerClassCheck cls data))
    ∧ (∀ t s v e, headerClassCheck cls data = .ok (t, s, v) →
        accountUpdateFrom cls (data.take s) v ACCOUNT_HEADER_BYTES = .error e →
        PythAccount.update_with_rpc_response cls data = .ok none) := by
  constructor
  · rcases hh : headerClassCheck cls data with e | ⟨t, s, v⟩
    · simp [PythAccount.update_with_rpc_response, hh, isErr]
    · rcases hb : accountUpdateFrom cls (data.take s) v ACCOUNT_HEADER_BYTES with e | d
      · simp [PythAccount.update_with_rpc_response, hh, hb, isErr]
      · simp [PythAccount.update_with_rpc_response, hh, hb, isErr]
  · intro t s v e hh hb
    simp [PythAccount.update_with_rpc_response, hh, hb]

set_option maxRecDepth 4000 in
/-- Claim C2, witness: the amended theorem applied to `c2buf`, whose body
decode raises IndexError at declared size 50 under version 1. -/
theorem C2_swallow_witness :
    PythAccount.update_with_rpc_response .productAccount c2buf = .ok none :=
  (C2_swallow_amended .productAccount c2buf).2 .PRODUCT 50 1 .indexError
    (by decide) (by decide)

/-- Claim C9: a version outside `{1, 2}` presented to the price-record
decoder fails closed (the `assert False` branch) and never decodes the buffer
under the version-1 or version-2 layout. -/
theorem C9_version_dispatch (version : Nat) (buffer : Buffer) (offset : Nat)
    (h1 : version ≠ 1) (h2 : version ≠ 2) :
    PythPriceAccount.update_from version buffer offset = .error .assertionFailed ∧
    ∀ d, PythPriceAccount.update_from version buffer offset ≠ .ok d := by
  have h : PythPriceAccount.update_from version buffer offset = .error .assertionFailed := by
    simp [PythPriceAccount.update_from, h1, h2]
  exact ⟨h, fun d hd => by rw [h] at hd; exact Except.noConfusion hd⟩

/-- Claim C9, witness: version 3 on a concrete 240-byte buffer. -/
theorem C9_version_witness :
    PythPriceAccount.update_from 3 c3buf 16 = .error .assertionFailed :=
  (C9_version_dispatch 3 c3buf 16 (by decide) (by decide)).1

/-- Claim C4, failing input evaluated: in `c4buf` the attribute name `"a"`
decodes with a nonzero length byte and the attribute value declares 5 payload
bytes at offset 34 of a 37-byte buffer (so reading it runs past the declared
size), yet the product decoder succeeds and silently truncates the value to
the 2 available bytes instead of failing. -/
theorem C4_silent_truncation :
    read_attribute_string c4buf 32 = .ok (some [97], 34) ∧
    c4buf.get? 34 = some 5 ∧ c4buf.length = 37 ∧
    PythProductAccount.update_from c4buf 0 = .ok ⟨none, [([97], some [98, 99])]⟩ := by
  decide

/-- Claim C5: a product whose loaded price set came from the key chain
[A, B, C], re-walked against an on-chain chain that is now [A, C, D],
reports added = [D] and removed = [B], and its refreshed price-type map holds
exactly the records with keys A, C, D. -/
theorem C5_chain_diff :
    check_price_changes (some keyA) env5 true p5 10 =
      ({ first_price_account_key := some keyA,
         prices := some [(.PRICE, curA), (.VOLATILITY, curC), (.UNKNOWN, curD)] },
       some ([curD], [curB])) ∧
    (((check_price_changes (some keyA) env5 true p5 10).1.prices.getD []).map
        (fun q => q.2.key)) = [keyA, keyC, keyD] := by decide

lemma list8_getD3 {α : Type} (d a0 a1 a2 a3 a4 a5 a6 a7 : α) :
    [a0, a1, a2, a3, a4, a5, a6, a7].getD 3 d = a3 := rfl

lemma list8_getD0 {α : Type} (d a0 a1 a2 a3 a4 a5 a6 a7 : α) :
    [a0, a1, a2, a3, a4, a5, a6, a7].getD 0 d = a0 := rfl

/-- Claim C3, amended: whenever the version-2 price decoder succeeds, the
fixed prefix it consumed is 192 bytes — the exponent sits 4 bytes in, the
retained EMA mapping is exactly accumulator indices 3 (TWAC value) and 0
(TWAP value) of the eight signed 64-bit accumulators starting 32 bytes in,
the product and next-price keys occupy bytes 96–160, and the aggregate
`PythPriceInfo` is read at 192 bytes (not 160: the decoder skips 32 further
bytes after the two keys, `offset += 96` for a 64-byte read). -/
theorem C3_v2_layout (buffer : Buffer) (offset : Nat) (d : PriceData)
    (h : PythPriceAccount.update_from 2 buffer offset = .ok d) :
    d.exponent = i32At buffer (offset + 4) ∧
    PythPriceInfo.deserialise buffer (offset + 192) d.exponent = .ok d.aggregate_price_info ∧
    d.derivations = [(.TWACVALUE, i64At buffer (offset + 56)),
                     (.TWAPVALUE, i64At buffer (offset + 32))] ∧
    d.product_account_key = keyAt buffer (offset + 96) ∧
    d.next_price_account_key =
      (if keyAt buffer (offset + 128) = nullKey then none
       else some (keyAt buffer (offset + 128))) := by
  simp only [PythPriceAccount.update_from, reduceIte] at h
  split_ifs at h
  rcases hagg : PythPriceInfo.deserialise buffer (offset + 192) (i32At buffer (offset + 4))
    with e | agg
  · simp only [priceFinish, hagg] at h
    exact Except.noConfusion h
  · rcases hcomp : componentLoop buffer (i32At buffer (offset + 4)) (buffer.length + 1)
        (offset + 192 + 32) with e | comps
    · simp only [priceFinish, hagg, hcomp] at h
      exact Except.noConfusion h
    · rcases hpt : PythPriceType.ofNat? (u32At buffer offset) with _ | pt
      · simp only [priceFinish, hagg, hcomp, hpt] at h
        exact Except.noConfusion h
      · simp only [priceFinish, hagg, hcomp, hpt, Except.ok.injEq] at h
        subst h
        refine ⟨rfl, hagg, ?_, rfl, rfl⟩
        have hr : List.range 8 = [0, 1, 2, 3, 4, 5, 6, 7] := rfl
        rw [hr]
        have e1 : offset + 32 + 8 * 3 = offset + 56 := by omega
        have e2 : offset + 32 + 8 * 0 = offset + 32 := by omega
        simp only [List.map_cons, List.map_nil, e1, e2, list8_getD3, list8_getD0]

set_option maxRecDepth 4000 in
/-- Claim C3, counterexample: on `c3buf` the version-2 decoder succeeds, but
its aggregate raw price is 42 — the signed 64-bit value found 192 bytes after
the header — and is not the `PythPriceInfo` found immediately after 160
bytes, whose raw price is 7, refuting the claimed 160-byte prefix. -/
theorem C3_counterexample :
    PythPriceAccount.update_from 2 c3buf 16 = .ok c3data ∧
    c3data.aggregate_price_info.raw_price = 42 ∧
    PythPriceInfo.deserialise c3buf (16 + 160) c3data.exponent = .ok ⟨7, 0, .UNKNOWN, 0, 0⟩ ∧
    PythPriceInfo.deserialise c3buf (16 + 160) c3data.exponent ≠ .ok c3data.aggregate_price_info := by
  decide

set_option maxRecDepth 4000 in
/-- Claim C3, witness: the amended layout theorem applied to `c3buf`. -/
theorem C3_v2_layout_witness :
    PythPriceInfo.deserialise c3buf (16 + 192) c3data.exponent = .ok c3data.aggregate_price_info ∧
    c3data.derivations = [(.TWACVALUE, i64At c3buf (16 + 56)), (.TWAPVALUE, i64At c3buf (16 + 32))] := by
  have h := C3_v2_layout c3buf 16 c3data (by decide)
  exact ⟨h.2.1, h.2.2.1⟩

/-- The mapping-entry loop (append non-null keys in order) is the order-
preserving filter of the slot reads. -/
lemma filterMap_keys_eq_filter (l : List Nat) (f : Nat → Key) :
    (l.filterMap fun i => if f i = nullKey then none else some (f i)) =
      (l.map f).filter (fun k => decide (k ≠ nullKey)) := by
  induction l with
  | nil => rfl
  | cons a t ih =>
    by_cases hk : f a = nullKey
    · simp [List.filterMap_cons, List.filter_cons, hk, ih]
    · simp [List.filterMap_cons, List.filter_cons, hk, ih]

/-- Claim C6: when the buffer covers the declared key slots, the mapping
decoder succeeds (an all-zero slot is skipped with a warning, never an error)
and its entries are exactly the non-null 32-byte slot reads, exactly
`product count` of them, in their original relative order — so the entries
list may be shorter than the declared count. -/
theorem C6_mapping_entries (buffer : Buffer) (offset : Nat)
    (h : offset + 40 + 32 * u32At buffer offset ≤ buffer.length) :
    ∃ m, PythMappingAccount.update_from buffer offset = .ok m ∧
      m.entries = ((List.range (u32At buffer offset)).map
          (fun i => keyAt buffer (offset + 40 + 32 * i))).filter
          (fun k => decide (k ≠ nullKey)) ∧
      m.entries.length ≤ u32At buffer offset := by
  unfold PythMappingAccount.update_from
  rw [if_neg (by omega)]
  refine ⟨_, rfl, ?_, ?_⟩
  · exact filterMap_keys_eq_filter _ _
  · rw [filterMap_keys_eq_filter]
    calc (((List.range (u32At buffer offset)).map _).filter _).length
        ≤ ((List.range (u32At buffer offset)).map
            (fun i => keyAt buffer (offset + 40 + 32 * i))).length :=
          List.length_filter_le _ _
      _ = u32At buffer offset := by simp

set_option maxRecDepth 4000 in
/-- Claim C6, witness: the theorem applied to a mapping buffer declaring
`product_count = 3` with an all-zero middle slot: the entries list is the two
non-zero keys, in order, of length 2. -/
theorem C6_mapping_witness :
    (0 + 40 + 32 * u32At c6buf 0 ≤ c6buf.length) ∧
    ∃ m, PythMappingAccount.update_from c6buf 0 = .ok m ∧
      m.entries = [c6key1, c6key3] ∧ m.entries.length = 2 := by
  refine ⟨by decide, ?_⟩
  obtain ⟨m, h1, h2, h3⟩ := C6_mapping_entries c6buf 0 (by decide)
  refine ⟨m, h1, ?_, ?_⟩
  · rw [h2]; decide
  · rw [h2]; decide

/-- Claim C7: every decoded `PythPriceInfo` carries the decoder-supplied
exponent, and its decimal price and confidence interval are the raw values
scaled by `10 ^ exponent` (exact-rational reading of
`raw_price * (10 ** exponent)`); in particular raw price 12345 with exponent
-2 gives 123.45 = 12345/100, and raw price 100 with exponent 3 gives
100000. -/
theorem C7_price_scaling :
    (∀ (buffer : Buffer) (offset : Nat) (e : Int) (info : PythPriceInfo),
        PythPriceInfo.deserialise buffer offset e = .ok info →
        info.price = (info.raw_price : ℚ) * (10 : ℚ) ^ info.exponent ∧
        info.confidence_interval =
          (info.raw_confidence_interval : ℚ) * (10 : ℚ) ^ info.exponent ∧
        info.exponent = e)
    ∧ (PythPriceInfo.mk 12345 0 .TRADING 0 (-2)).price = 12345 / 100
    ∧ (PythPriceInfo.mk 100 0 .TRADING 0 3).price = 100000 := by
  refine ⟨?_, ?_, ?_⟩
  · intro buffer offset e info h
    refine ⟨rfl, rfl, ?_⟩
    simp only [PythPriceInfo.deserialise] at h
    split_ifs at h
    rcases hs : PythPriceStatus.ofNat? (u32At buffer (offset + 16)) with _ | st
    · rw [hs] at h; exact Except.noConfusion h
    · rw [hs] at h
      simp only [Except.ok.injEq] at h
      rw [← h]
  · norm_num [PythPriceInfo.price]
  · norm_num [PythPriceInfo.price]

/-- Claim C7, witness: deserialising a concrete 32-byte buffer encoding raw
price 12345 with exponent -2 and applying the theorem gives decimal price
12345/100. -/
theorem C7_price_scaling_witness :
    ∃ info, PythPriceInfo.deserialise c7buf 0 (-2) = .ok info ∧
      info.exponent = -2 ∧ info.raw_price = 12345 ∧ info.price = 12345 / 100 := by
  have h := C7_price_scaling.1 c7buf 0 (-2) ⟨12345, 0, .TRADING, 0, -2⟩ (by decide)
  exact ⟨⟨12345, 0, .TRADING, 0, -2⟩, by decide, h.2.2, by decide, by rw [h.1]; norm_num⟩

/-- A failed or interrupted `refresh_prices` leaves the product exactly as it
was. -/
lemma refresh_prices_fail (env : Key → Option PriceNode) (p : ProductState)
    (fuel : Nat) (h : (refresh_prices env p fuel).2 = none) :
    (refresh_prices env p fuel).1 = p := by
  rcases hw : refreshWalk env fuel p.first_price_account_key [] with _ | m
  · simp [refresh_prices, hw]
  · simp [refresh_prices, hw] at h

/-- A completed `refresh_prices` replaces the cached map in one step. -/
lemma refresh_prices_ok (env : Key → Option PriceNode) (p : ProductState)
    (fuel : Nat) (m : List (PythPriceType × PriceNode))
    (h : (refresh_prices env p fuel).2 = some m) :
    (refresh_prices env p fuel).1 = { p with prices := some m } := by
  rcases hw : refreshWalk env fuel p.first_price_account_key [] with _ | m'
  · simp [refresh_prices, hw] at h
  · simp only [refresh_prices, hw] at h ⊢
    obtain rfl : m' = m := by simpa using h
    rfl

/-- Claim C8: for all three refresh operations (`refresh_prices`,
`check_price_changes`, `use_price_accounts`), over every account source,
product state and interruption point (the fuel counts the hops completed
before failure or cancellation): if the operation does not complete, the
cached price set is exactly what it was before the operation started, and on
success it is replaced in one step with the fully built map. -/
theorem C8_replace_on_completion :
    (∀ (env : Key → Option PriceNode) (p : ProductState) (fuel : Nat),
       (refresh_prices env p fuel).2 = none → (refresh_prices env p fuel).1 = p)
    ∧ (∀ (env : Key → Option PriceNode) (p : ProductState) (fuel : Nat)
         (m : List (PythPriceType × PriceNode)),
       (refresh_prices env p fuel).2 = some m →
       (refresh_prices env p fuel).1 = { p with prices := some m })
    ∧ (∀ (selfFirst : Option Key) (env : Key → Option PriceNode) (u : Bool)
         (p : ProductState) (fuel : Nat),
       (check_price_changes selfFirst env u p fuel).2 = none →
       (check_price_changes selfFirst env u p fuel).1.prices = p.prices)
    ∧ (∀ (selfFirst : Option Key) (env : Key → Option PriceNode) (u : Bool)
         (p : ProductState) (fuel : Nat) (r : List PriceNode × List PriceNode),
       (check_price_changes selfFirst env u p fuel).2 = some r →
       ∃ m, (check_price_changes selfFirst env u p fuel).1.prices = some m)
    ∧ (∀ (p : ProductState) (l : List PriceNode),
       (use_price_accounts p l).2 = none → (use_price_accounts p l).1 = p)
    ∧ (∀ (p : ProductState) (l : List PriceNode)
         (m : List (PythPriceType × PriceNode)),
       (use_price_accounts p l).2 = some m →
       (use_price_accounts p l).1 = { p with prices := some m }) := by
  refine ⟨refresh_prices_fail, refresh_prices_ok, ?_, ?_, ?_, ?_⟩
  · intro sf env u p fuel h
    rcases hp : p.prices with _ | cached
    · rcases hr : refresh_prices env p fuel with ⟨p1, r⟩
      rcases r with _ | m
      · have hq := refresh_prices_fail env p fuel (by rw [hr])
        rw [hr] at hq
        simp only at hq
        simp only [check_price_changes, hp, hr, hq]
      · simp [check_price_changes, hp, hr] at h
    · cases u
      case false =>
        simp only [check_price_changes, hp, Bool.false_eq_true, false_and,
          if_false, reduceIte] at h ⊢
        split at h
        · next hw => simp [hw, hp]
        · next hw => simp [hw] at h
      case true =>
        by_cases hall :
            ((cached.map (fun q => (q.2.key, q.2))).all fun q => (env q.1).isSome) = true
        · simp only [check_price_changes, hp, hall, not_true, and_false,
            if_false, reduceIte, true_and, not_false_eq_true, if_true] at h ⊢
          split at h
          · next hw => simp [hw, hp]
          · next hw => simp [hw] at h
        · simp only [check_price_changes, hp, hall, not_false_eq_true, and_true,
            true_and, if_true, reduceIte] at h ⊢
          simp [hp]
  · intro sf env u p fuel r h
    rcases hp : p.prices with _ | cached
    · rcases hr : refresh_prices env p fuel with ⟨p1, r1⟩
      rcases r1 with _ | m
      · simp [check_price_changes, hp, hr] at h
      · have hq := refresh_prices_ok env p fuel m (by rw [hr])
        rw [hr] at hq
        simp only at hq
        refine ⟨m, ?_⟩
        simp only [check_price_changes, hp, hr, hq]
    · cases u
      case false =>
        simp only [check_price_changes, hp, Bool.false_eq_true, false_and,
          if_false, reduceIte] at h ⊢
        split at h
        · next hw => simp [hw] at h
        · next hw => simp [hw]
      case true =>
        by_cases hall :
            ((cached.map (fun q => (q.2.key, q.2))).all fun q => (env q.1).isSome) = true
        · simp only [check_price_changes, hp, hall, not_true, and_false,
            if_false, reduceIte, true_and, not_false_eq_true, if_true] at h ⊢
          split at h
          · next hw => simp [hw] at h
          · next hw => simp [hw]
        · simp only [check_price_changes, hp, hall, not_false_eq_true, and_true,
            true_and, if_true, reduceIte] at h ⊢
          simp at h
  · intro p l h
    rcases hl : usePricesLoop p.first_price_account_key l [] with _ | m
    · simp [use_price_accounts, hl]
    · simp [use_price_accounts, hl] at h
  · intro p l m h
    rcases hl : usePricesLoop p.first_price_account_key l [] with _ | m'
    · simp [use_price_accounts, hl] at h
    · simp only [use_price_accounts, hl] at h ⊢
      obtain rfl : m' = m := by simpa using h
      rfl

/-- Claim C8, witness: a refresh against an account source on which every
fetch fails, and an installation that raises on a missing tail, both leave
the concrete product `p8` unchanged. -/
theorem C8_replace_witness :
    (refresh_prices envFail p8 5).1 = p8 ∧
    (use_price_accounts p8 []).1 = p8 := by
  constructor
  · exact C8_replace_on_completion.1 envFail p8 5 (by decide)
  · exact C8_replace_on_completion.2.2.2.2.1 p8 [] (by decide)
